import Mathlib

/-
Verification of the position-reconstruction and P&L engine of the jwcoin
repository (src/streamlit_app.py) and of the CLI ledger manager
(src/cli_db_manager.py).

Python floats are modelled as exact rationals (ℚ); the decimal literals of
the source (0.0005, 0.00001, 0.000001, 0.5, 1000) become the corresponding
rational constants.  DataFrame rows become records; the row-indexed loops of
the source, which only ever read row i and row i-1, become maps over the
list of (previous?, current) pairs; the cumulative-sum columns become a left
fold carrying the running totals.
-/

namespace JwCoin

/-- One row of the `trades` table as read by the dashboard
(src/streamlit_app.py).  `reason` is `none` when the column is NA
(`pd.notna` fails). -/
structure Snapshot where
  reason : Option String
  btc_balance : ℚ
  krw_balance : ℚ
  btc_krw_price : ℚ
  btc_avg_buy_price : ℚ
deriving DecidableEq, Repr

/-- Classification assigned by `detect_cash_flows` to each row
(column `cash_flow_type`, values 'trade' / 'deposit' / 'withdraw'). -/
inductive FlowType where
  | trade
  | deposit
  | withdraw
deriving DecidableEq, Repr

/-- Event kinds in the vocabulary of the specification (§3 Derived Event). -/
inductive EventKind where
  | tradeBuy
  | tradeSell
  | deposit
  | withdraw
  | noop
deriving DecidableEq, Repr

/-- Upbit fee rate constant, line 12 of src/streamlit_app.py
(`UPBIT_FEE_RATE = 0.0005`). -/
def UPBIT_FEE_RATE : ℚ := 5 / 10000

/-- Base-asset noise threshold of the deposit/withdraw auto-detection,
literal `0.00001` at line 119 of src/streamlit_app.py. -/
def detectEps : ℚ := 1 / 100000

/-- Cash materiality threshold of the deposit/withdraw auto-detection,
literal `1000` at line 119 of src/streamlit_app.py. -/
def materiality : ℚ := 1000

/-- Base-asset threshold of the buy/sell split, literal `0.000001` at
lines 150/154 of src/streamlit_app.py. -/
def tradeEps : ℚ := 1 / 1000000

/-- Python's `str.lower()` applied to the `reason` column after the
`pd.notna` guard: a missing reason becomes the empty string. -/
def lowerChars (s : Option String) : List Char :=
  match s with
  | some str => str.toList.map Char.toLower
  | none => []

/-- Python's substring operator `pat in hay`. -/
def containsSub (hay pat : List Char) : Bool :=
  match hay with
  | [] => pat.isEmpty
  | _ :: t => pat.isPrefixOf hay || containsSub t pat

/-- The pattern `'manual deposit'` checked at line 84 of src/streamlit_app.py. -/
def depositPat : List Char := ("manual deposit").toList

/-- The pattern `'manual withdraw'` checked at line 99 of src/streamlit_app.py. -/
def withdrawPat : List Char := ("manual withdraw").toList

/-- Greedy `\d{1,3}`: take up to `n` leading digit characters, returning the
digits taken and the remaining characters. -/
def takeDigitsAux : Nat → List Char → List Char × List Char
  | _, [] => ([], [])
  | 0, cs => ([], cs)
  | Nat.succ n, c :: cs =>
    if c.isDigit then
      let p := takeDigitsAux n cs
      (c :: p.1, p.2)
    else ([], c :: cs)

/-- Greedy `(?:,\d{3})*`: collect the digits of as many `,ddd` groups as
follow, dropping the commas (the source does `.replace(',', '')`). -/
def commaGroups : List Char → List Char
  | ',' :: a :: b :: c :: rest =>
    if a.isDigit && b.isDigit && c.isDigit then a :: b :: c :: commaGroups rest
    else []
  | _ => []

/-- Numeric value of a digit string. -/
def digitsToNat (ds : List Char) : Nat :=
  ds.foldl (fun a c => a * 10 + (c.toNat - 48)) 0

/-- Python's `re.search(r'(\d{1,3}(?:,\d{3})*)', s)` followed by
`float(match.group(1).replace(',', ''))` (lines 93-96 of
src/streamlit_app.py): leftmost match, greedy quantifiers, nothing after the
group so no backtracking. -/
def searchAmount : List Char → Option Nat
  | [] => none
  | c :: rest =>
    if c.isDigit then
      let p := takeDigitsAux 3 (c :: rest)
      some (digitsToNat (p.1 ++ commaGroups p.2))
    else searchAmount rest

/-- Output row of `detect_cash_flows`: the snapshot together with the
columns `cash_flow_type`, `deposit_amount`, `withdraw_amount` it adds. -/
structure Flagged where
  snap : Snapshot
  cash_flow_type : FlowType
  deposit_amount : ℚ
  withdraw_amount : ℚ
deriving DecidableEq, Repr

/-- Body of the loop of `detect_cash_flows` (lines 80-126 of
src/streamlit_app.py) for one row: `prev = none` means `i = 0`.  The
manual-note checks on the lowered `reason` come first and `continue`; the
delta-based auto-detection runs only for `i > 0`. -/
def classifyRow (prev : Option Snapshot) (curr : Snapshot) : Flagged :=
  let rlow := lowerChars curr.reason
  if containsSub rlow depositPat then
    let dep : ℚ :=
      match prev with
      | some p =>
        let kc := curr.krw_balance - p.krw_balance
        if 0 < kc then kc else 0
      | none =>
        match searchAmount rlow with
        | some n => (n : ℚ)
        | none => 0
    ⟨curr, FlowType.deposit, dep, 0⟩
  else if containsSub rlow withdrawPat then
    let wd : ℚ :=
      match prev with
      | some p =>
        let kc := p.krw_balance - curr.krw_balance
        if 0 < kc then kc else 0
      | none => 0
    ⟨curr, FlowType.withdraw, 0, wd⟩
  else
    match prev with
    | none => ⟨curr, FlowType.trade, 0, 0⟩
    | some p =>
      let bc := |curr.btc_balance - p.btc_balance|
      let kc := curr.krw_balance - p.krw_balance
      if bc < detectEps ∧ materiality < |kc| then
        if 0 < kc then ⟨curr, FlowType.deposit, kc, 0⟩
        else ⟨curr, FlowType.withdraw, 0, |kc|⟩
      else ⟨curr, FlowType.trade, 0, 0⟩

/-- Pair each list element with its predecessor (`none` for the first
element), mirroring the `df.loc[i-1] / df.loc[i]` access pattern. -/
def withPrev {α : Type} (xs : List α) : List (Option α × α) :=
  (none :: xs.map some).zip xs

/-- `detect_cash_flows` (lines 73-127 of src/streamlit_app.py). -/
def detect_cash_flows (rows : List Snapshot) : List Flagged :=
  (withPrev rows).map (fun pc => classifyRow pc.1 pc.2)

/-- Output row of `calculate_trading_amounts`: the flagged row together
with the columns `buy_amount`, `sell_amount`, `trading_fee` it adds. -/
structure Amounts where
  snap : Snapshot
  cash_flow_type : FlowType
  deposit_amount : ℚ
  withdraw_amount : ℚ
  buy_amount : ℚ
  sell_amount : ℚ
  trading_fee : ℚ
deriving DecidableEq, Repr

/-- Body of the loop of `calculate_trading_amounts` (lines 136-157 of
src/streamlit_app.py) for one row: non-trade rows are skipped; row 0 with a
positive balance is the implicit opening buy; otherwise the signed
base-asset difference against the trade epsilon decides buy/sell. -/
def tradeRow (prev : Option Flagged) (curr : Flagged) : Amounts :=
  let base : Amounts :=
    ⟨curr.snap, curr.cash_flow_type, curr.deposit_amount, curr.withdraw_amount, 0, 0, 0⟩
  if curr.cash_flow_type ≠ FlowType.trade then base
  else
    match prev with
    | none =>
      if 0 < curr.snap.btc_balance then
        let amount := curr.snap.btc_balance * curr.snap.btc_krw_price
        { base with buy_amount := amount, trading_fee := amount * UPBIT_FEE_RATE }
      else base
    | some p =>
      let d := curr.snap.btc_balance - p.snap.btc_balance
      if tradeEps < d then
        let amount := d * curr.snap.btc_krw_price
        { base with buy_amount := amount, trading_fee := amount * UPBIT_FEE_RATE }
      else if d < -tradeEps then
        let amount := |d| * curr.snap.btc_krw_price
        { base with sell_amount := amount, trading_fee := amount * UPBIT_FEE_RATE }
      else base

/-- `calculate_trading_amounts` (lines 129-159 of src/streamlit_app.py). -/
def calculate_trading_amounts (fs : List Flagged) : List Amounts :=
  (withPrev fs).map (fun pc => tradeRow pc.1 pc.2)

/-- Running totals of the five `cumsum` columns of `calculate_performance`
(lines 166-170 of src/streamlit_app.py). -/
structure CumAcc where
  deposits : ℚ
  withdraws : ℚ
  buys : ℚ
  sells : ℚ
  fees : ℚ
deriving DecidableEq, Repr

/-- One output row of `calculate_performance`. -/
structure Entry where
  snap : Snapshot
  cash_flow_type : FlowType
  deposit_amount : ℚ
  withdraw_amount : ℚ
  buy_amount : ℚ
  sell_amount : ℚ
  trading_fee : ℚ
  cumulative_deposits : ℚ
  cumulative_withdraws : ℚ
  cumulative_buy : ℚ
  cumulative_sell : ℚ
  cumulative_fees : ℚ
  total_asset : ℚ
  investment : ℚ
  performance : ℚ
  return_rate : ℚ
  realized_profit : ℚ
deriving DecidableEq, Repr

/-- Add one row's amounts to the running totals (the `cumsum` step). -/
def stepAcc (acc : CumAcc) (a : Amounts) : CumAcc :=
  ⟨acc.deposits + a.deposit_amount, acc.withdraws + a.withdraw_amount,
   acc.buys + a.buy_amount, acc.sells + a.sell_amount, acc.fees + a.trading_fee⟩

/-- Body of the loop of `calculate_performance` (lines 172-207 of
src/streamlit_app.py) for one row, given the cumulative sums up to and
including this row. -/
def perfRow (a : Amounts) (acc : CumAcc) : Entry :=
  let btc_value := a.snap.btc_balance * a.snap.btc_krw_price
  let total_asset := btc_value + a.snap.krw_balance
  let investment := acc.deposits - acc.withdraws
  let performance := total_asset - investment
  let return_rate := if 0 < investment then performance / investment * 100 else 0
  let realized_profit :=
    if 0 < acc.sells ∧ 0 < a.snap.btc_avg_buy_price then
      let sold_btc := if 0 < a.snap.btc_krw_price then acc.sells / a.snap.btc_krw_price else 0
      acc.sells - sold_btc * a.snap.btc_avg_buy_price - acc.fees * (1 / 2)
    else 0
  ⟨a.snap, a.cash_flow_type, a.deposit_amount, a.withdraw_amount,
   a.buy_amount, a.sell_amount, a.trading_fee,
   acc.deposits, acc.withdraws, acc.buys, acc.sells, acc.fees,
   total_asset, investment, performance, return_rate, realized_profit⟩

/-- Fold of `calculate_performance` over the rows, carrying the running
cumulative sums. -/
def perfGo (acc : CumAcc) : List Amounts → List Entry
  | [] => []
  | a :: rest =>
    let acc2 := stepAcc acc a
    perfRow a acc2 :: perfGo acc2 rest

/-- `calculate_performance` (lines 161-209 of src/streamlit_app.py). -/
def calculate_performance (xs : List Amounts) : List Entry :=
  perfGo ⟨0, 0, 0, 0, 0⟩ xs

/-- The dashboard's analysis pipeline as invoked at lines 511-513 of
src/streamlit_app.py: `detect_cash_flows`, then `calculate_trading_amounts`,
then `calculate_performance`. -/
def pipeline (rows : List Snapshot) : List Entry :=
  calculate_performance (calculate_trading_amounts (detect_cash_flows rows))

/-- Combined classification of a non-first snapshot pair, in the event
vocabulary of the spec: the `cash_flow_type` assigned by
`detect_cash_flows`, refined for trade rows by the buy/sell branch
conditions of `calculate_trading_amounts` (lines 150-157). -/
def codeKind (prev curr : Snapshot) : EventKind :=
  let ft := (classifyRow (some prev) curr).cash_flow_type
  if ft = FlowType.deposit then EventKind.deposit
  else if ft = FlowType.withdraw then EventKind.withdraw
  else
    let d := curr.btc_balance - prev.btc_balance
    if tradeEps < d then EventKind.tradeBuy
    else if d < -tradeEps then EventKind.tradeSell
    else EventKind.noop

/-- The classification rule in the words of the spec (§4.1), with a single
noise epsilon and a single materiality threshold as the spec configures
them (§6): used to compare the spec's rule against the code's. -/
def specKind (eps mat : ℚ) (prev curr : Snapshot) : EventKind :=
  let bd := curr.btc_balance - prev.btc_balance
  let cd := curr.krw_balance - prev.krw_balance
  if |bd| < eps ∧ mat < |cd| then
    (if 0 < cd then EventKind.deposit else EventKind.withdraw)
  else if eps < bd then EventKind.tradeBuy
  else if bd < -eps then EventKind.tradeSell
  else EventKind.noop

/-- One raw row of the query result of `load_data`
(src/streamlit_app.py lines 44-71): `ts` is the result of the pandas
timestamp parse with `errors='coerce'` — `none` for an unparseable
timestamp (NaT), `some t` otherwise.  The parse itself is a pandas library
call (an external collaborator); only its Option-valued outcome matters to
the engine. -/
structure RawRow where
  ts : Option Int
  payload : Snapshot
deriving DecidableEq, Repr

/-- The timestamp-repair step of `load_data` (lines 57-64 of
src/streamlit_app.py): rows whose timestamp failed to parse are kept and
get the current time (`pd.Timestamp.now()`); all other rows pass through
unchanged. -/
def fix_timestamps (now : Int) (rows : List RawRow) : List RawRow :=
  rows.map (fun r =>
    match r.ts with
    | some _ => r
    | none => ⟨some now, r.payload⟩)

/-- The count of rows with unparseable timestamps that `load_data` prints
as a warning (lines 60-62 of src/streamlit_app.py). -/
def invalid_dates_count (rows : List RawRow) : Nat :=
  (rows.filter (fun r => r.ts.isNone)).length

/-- One row of the `trades` table with the columns touched by
`CLIDBManager.add_withdrawal` (src/cli_db_manager.py lines 149-182). -/
structure TradeRowDB where
  timestamp : Int
  decision : String
  percentage : ℚ
  reason : String
  btc_balance : ℚ
  krw_balance : ℚ
  btc_avg_buy_price : ℚ
  btc_krw_price : ℚ
  transaction_type : String
  manual_entry : Nat
  notes : String
deriving DecidableEq, Repr

/-- `SELECT ... FROM trades ORDER BY timestamp DESC LIMIT 1`: the row with
the largest timestamp (the first such row on ties). -/
def latest_by_timestamp (rows : List TradeRowDB) : Option TradeRowDB :=
  rows.foldl
    (fun acc r =>
      match acc with
      | none => some r
      | some b => if b.timestamp < r.timestamp then some r else some b)
    none

/-- `CLIDBManager.add_withdrawal` (src/cli_db_manager.py lines 149-182):
returns the table after the call and the method's return value.  With no
existing trade, or with the latest `krw_balance` below the requested
amount, nothing is inserted and the method returns `False`; otherwise a
withdrawal row is inserted carrying the latest balances with `krw_balance`
reduced by the amount, and the method returns `True`. -/
def add_withdrawal (table : List TradeRowDB) (now : Int) (amount : ℚ)
    (description : String) : List TradeRowDB × Bool :=
  match latest_by_timestamp table with
  | none => (table, false)
  | some latest =>
    if latest.krw_balance < amount then (table, false)
    else
      let newRow : TradeRowDB :=
        ⟨now, "hold", 0, ("Manual withdrawal: ") ++ description,
         latest.btc_balance, latest.krw_balance - amount,
         latest.btc_avg_buy_price, latest.btc_krw_price,
         "withdrawal", 1, description⟩
      (table ++ [newRow], true)

/-- Scenario A, first snapshot: flat position, 1,000,000 KRW cash. -/
def snapA0 : Snapshot := ⟨none, 0, 1000000, 60000000, 0⟩

/-- Scenario A, second snapshot: implicit buy of 0.01 at 60,000,000. -/
def snapA1 : Snapshot := ⟨none, 1 / 100, 400000, 60000000, 60000000⟩

/-- Scenario B extension: sell of 0.005 at 62,000,000, exchange-reported
average cost still 60,000,000. -/
def snapB2 : Snapshot := ⟨none, 1 / 200, 700000, 62000000, 60000000⟩

/-- The snapshot sequence of Scenario B (Scenario A extended by the sell). -/
def scenarioB : List Snapshot := [snapA0, snapA1, snapB2]

/-- A snapshot that makes the previous pair an inferred trade-buy of 0.01
priced at a negative last price. -/
def negSnap1 : Snapshot := ⟨none, 1 / 100, 1000000, -100, 0⟩

/-- Predecessor snapshot of the classifier counterexample pairs. -/
def cePrev : Snapshot := ⟨none, 0, 100000, 60000000, 0⟩

/-- Successor with base delta 0.000005 (between the two epsilons of the
code) and cash delta +5,000: the code classifies this pair `deposit`. -/
def ceDep : Snapshot := ⟨none, 1 / 200000, 105000, 60000000, 0⟩

/-- Successor with base delta 0.000005 and cash delta 0: the code
classifies this pair `trade-buy`. -/
def ceBuy : Snapshot := ⟨none, 1 / 200000, 100000, 60000000, 0⟩

/-- A snapshot carrying an authoritative manual-deposit note. -/
def noteSnap : Snapshot := ⟨some ("Manual Deposit: recovery 50,000"), 0, 150000, 60000000, 0⟩

/-- A concrete latest trade row for the CLI-manager withdrawal tests. -/
def trow : TradeRowDB :=
  ⟨1, "hold", 0, "seed", 1 / 2, 500, 100, 200, "trade", 0, "n"⟩

end JwCoin

namespace JwCoin

/-- A missing reason contains no manual-deposit mark. -/
lemma containsSub_nil_dep : containsSub [] depositPat = false := by decide

/-- A missing reason contains no manual-withdraw mark. -/
lemma containsSub_nil_wd : containsSub [] withdrawPat = false := by decide

/-- `detect_cash_flows` keeps each row's snapshot. -/
lemma classifyRow_snap (prev : Option Snapshot) (curr : Snapshot) :
    (classifyRow prev curr).snap = curr := by
  cases prev <;> simp only [classifyRow] <;> (repeat' split) <;> rfl

/-- `calculate_trading_amounts` keeps each row's snapshot. -/
lemma tradeRow_snap (prev : Option Flagged) (curr : Flagged) :
    (tradeRow prev curr).snap = curr.snap := by
  cases prev <;> simp only [tradeRow] <;> (repeat' split) <;> rfl

/-- C1 counterexample: on Scenario B the ledger entry at t2 has
`realized_profit = 9772.5 = 19545/2`, not `10000 - 155 = 9845` as the
claim states — the code subtracts half of the cumulative fees
(`fees_total * 0.5`, i.e. (300 + 155)/2 = 227.5), not the sell's own
estimated fee of 155. -/
theorem C1_counterexample :
    ((pipeline scenarioB).map Entry.realized_profit) = [0, 0, 19545 / 2] ∧
      (19545 / 2 : ℚ) ≠ (1 / 200) * 62000000 - (1 / 200) * 60000000 - 155 := by
  constructor
  · norm_num [pipeline, calculate_performance, perfGo, perfRow, stepAcc,
      calculate_trading_amounts, tradeRow, detect_cash_flows, classifyRow, withPrev,
      lowerChars, containsSub_nil_dep, containsSub_nil_wd, detectEps, materiality,
      tradeEps, UPBIT_FEE_RATE, scenarioB, snapA0, snapA1, snapB2,
      abs_of_nonneg, abs_of_nonpos]
  · norm_num

/-- C1 (amended): on Scenario B the sell at t2 (notional 310,000, sold
cost 300,000 at the reported average cost 60,000,000) yields
`realized_profit = 310000 - 300000 - 455/2`, where 455 is the cumulative
fee total (300 from the implicit opening buy plus 155 from the sell): the
code subtracts half of the cumulative fees, not the sell's own fee. -/
theorem C1_amended :
    ((pipeline scenarioB).map (fun e => (e.cumulative_fees, e.realized_profit))) =
      [(0, 0), (300, 0),
       (455, (1 / 200) * 62000000 - (1 / 200) * 60000000 - 455 * (1 / 2))] := by
  norm_num [pipeline, calculate_performance, perfGo, perfRow, stepAcc,
    calculate_trading_amounts, tradeRow, detect_cash_flows, classifyRow, withPrev,
    lowerChars, containsSub_nil_dep, containsSub_nil_wd, detectEps, materiality,
    tradeEps, UPBIT_FEE_RATE, scenarioB, snapA0, snapA1, snapB2,
    abs_of_nonneg, abs_of_nonpos]

/-- Classification of the pair (cePrev, ceDep) by the code: deposit,
because the base delta 0.000005 is below the detection epsilon 0.00001
and the cash delta 5,000 exceeds 1,000. -/
lemma codeKind_ceDep : codeKind cePrev ceDep = EventKind.deposit := by
  norm_num [codeKind, classifyRow, lowerChars, containsSub_nil_dep, containsSub_nil_wd,
    cePrev, ceDep, detectEps, materiality, tradeEps, abs_of_nonneg]

/-- Classification of the pair (cePrev, ceBuy) by the code: trade-buy,
because the base delta 0.000005 exceeds the trade epsilon 0.000001. -/
lemma codeKind_ceBuy : codeKind cePrev ceBuy = EventKind.tradeBuy := by
  norm_num [codeKind, classifyRow, lowerChars, containsSub_nil_dep, containsSub_nil_wd,
    cePrev, ceBuy, detectEps, materiality, tradeEps, abs_of_nonneg]
  decide

/-- C2 counterexample: no single epsilon threshold (with any materiality
threshold) reproduces the code's classification on both concrete pairs
(cePrev, ceDep) and (cePrev, ceBuy), whose base deltas are both 0.000005:
the code classifies the first `deposit` (which forces epsilon > 0.000005)
and the second `trade-buy` (which forces epsilon < 0.000005), because it
uses two different epsilons (0.00001 and 0.000001). -/
theorem C2_counterexample :
    ¬ ∃ eps mat : ℚ,
      specKind eps mat cePrev ceDep = codeKind cePrev ceDep ∧
      specKind eps mat cePrev ceBuy = codeKind cePrev ceBuy := by
  rintro ⟨eps, mat, h1, h2⟩
  rw [codeKind_ceDep] at h1
  rw [codeKind_ceBuy] at h2
  simp only [specKind, cePrev, ceDep, ceBuy] at h1 h2
  simp only [show |(1:ℚ)/200000 - 0| = 1/200000 from by norm_num,
    show (1:ℚ)/200000 - 0 = 1/200000 from by norm_num,
    show |(1:ℚ)/200000| = 1/200000 from by norm_num,
    show (105000:ℚ) - 100000 = 5000 from by norm_num,
    show (100000:ℚ) - 100000 = 0 from by norm_num] at h1 h2
  simp only [show |(5000:ℚ)| = 5000 from by norm_num] at h1
  simp only [show |(0:ℚ)| = 0 from by norm_num] at h2
  by_cases hA : (1:ℚ)/200000 < eps
  · by_cases hM : mat < (0:ℚ)
    · rw [if_pos (And.intro hA hM)] at h2
      rw [if_neg (by norm_num : ¬ (0:ℚ) < 0)] at h2
      exact absurd h2 (by decide)
    · rw [if_neg (fun hh => hM hh.2)] at h2
      rw [if_neg (by linarith : ¬ eps < (1:ℚ)/200000)] at h2
      rw [if_neg (by linarith : ¬ (1:ℚ)/200000 < -eps)] at h2
      exact absurd h2 (by decide)
  · rw [if_neg (fun hh => hA hh.1)] at h1
    by_cases hB : eps < (1:ℚ)/200000
    · rw [if_pos hB] at h1
      exact absurd h1 (by decide)
    · rw [if_neg hB] at h1
      by_cases hC : (1:ℚ)/200000 < -eps
      · rw [if_pos hC] at h1
        exact absurd h1 (by decide)
      · rw [if_neg hC] at h1
        exact absurd h1 (by decide)

/-- C2 (amended): for every adjacent snapshot pair whose current row
carries no manual-deposit or manual-withdraw note, the code's
classification follows the claimed rule with TWO distinct epsilons: the
deposit/withdraw test uses the detection epsilon 0.00001 and the
materiality threshold 1,000, while the buy/sell split uses the separate
trade epsilon 0.000001; deposit on positive cash delta, withdraw on
negative, and otherwise a no-op. -/
theorem C2_theorem (prev curr : Snapshot)
    (h1 : containsSub (lowerChars curr.reason) depositPat = false)
    (h2 : containsSub (lowerChars curr.reason) withdrawPat = false) :
    codeKind prev curr =
      if |curr.btc_balance - prev.btc_balance| < detectEps ∧
          materiality < |curr.krw_balance - prev.krw_balance| then
        (if 0 < curr.krw_balance - prev.krw_balance then EventKind.deposit
         else EventKind.withdraw)
      else if tradeEps < curr.btc_balance - prev.btc_balance then EventKind.tradeBuy
      else if curr.btc_balance - prev.btc_balance < -tradeEps then EventKind.tradeSell
      else EventKind.noop := by
  by_cases hA : |curr.btc_balance - prev.btc_balance| < detectEps ∧
      materiality < |curr.krw_balance - prev.krw_balance|
  · by_cases hB : 0 < curr.krw_balance - prev.krw_balance <;>
      simp [codeKind, classifyRow, h1, h2, hA, hB]
  · by_cases hC : tradeEps < curr.btc_balance - prev.btc_balance
    · simp [codeKind, classifyRow, h1, h2, hA, hC]
    · by_cases hD : curr.btc_balance - prev.btc_balance < -tradeEps <;>
        simp [codeKind, classifyRow, h1, h2, hA, hC, hD]

/-- Witness for C2_theorem at the concrete pair (cePrev, ceDep). -/
theorem C2_witness : codeKind cePrev ceDep = EventKind.deposit := by
  have h := C2_theorem cePrev ceDep (by decide) (by decide)
  rw [h]
  norm_num [cePrev, ceDep, detectEps, materiality, tradeEps, abs_of_nonneg]

/-- C3: for every snapshot pair classified trade-buy or trade-sell, the
reconstructed notional (the buy or sell amount, whichever the event set)
equals `|base_delta| * curr.last_price`, and the estimated fee equals that
notional times the configured fee rate 0.0005, for buys and sells alike. -/
theorem C3_theorem (pf : Flagged) (prev curr : Snapshot) (hp : pf.snap = prev)
    (h : codeKind prev curr = EventKind.tradeBuy ∨ codeKind prev curr = EventKind.tradeSell) :
    (tradeRow (some pf) (classifyRow (some prev) curr)).buy_amount
        + (tradeRow (some pf) (classifyRow (some prev) curr)).sell_amount
      = |curr.btc_balance - prev.btc_balance| * curr.btc_krw_price ∧
    (tradeRow (some pf) (classifyRow (some prev) curr)).trading_fee
      = |curr.btc_balance - prev.btc_balance| * curr.btc_krw_price * UPBIT_FEE_RATE := by
  have hsnap := classifyRow_snap (some prev) curr
  by_cases hdep : (classifyRow (some prev) curr).cash_flow_type = FlowType.deposit
  · simp [codeKind, hdep] at h
  by_cases hwd : (classifyRow (some prev) curr).cash_flow_type = FlowType.withdraw
  · simp [codeKind, hdep, hwd] at h
  have htr : (classifyRow (some prev) curr).cash_flow_type = FlowType.trade := by
    cases hv : (classifyRow (some prev) curr).cash_flow_type <;> simp_all
  by_cases hgt : tradeEps < curr.btc_balance - prev.btc_balance
  · have hd0 : (0:ℚ) < curr.btc_balance - prev.btc_balance :=
      lt_trans (by norm_num [tradeEps]) hgt
    constructor <;>
      simp [tradeRow, htr, hsnap, hp, hgt, abs_of_pos hd0]
  · by_cases hlt : curr.btc_balance - prev.btc_balance < -tradeEps
    · constructor <;>
        simp [tradeRow, htr, hsnap, hp, hgt, hlt]
    · exfalso
      simp [codeKind, hdep, hwd, hgt, hlt] at h

/-- Witness for C3_theorem at the Scenario A buy pair. -/
theorem C3_witness :
    (tradeRow (some (classifyRow none snapA0)) (classifyRow (some snapA0) snapA1)).buy_amount
        + (tradeRow (some (classifyRow none snapA0)) (classifyRow (some snapA0) snapA1)).sell_amount
      = 600000 ∧
    (tradeRow (some (classifyRow none snapA0)) (classifyRow (some snapA0) snapA1)).trading_fee
      = 300 := by
  have hk : codeKind snapA0 snapA1 = EventKind.tradeBuy := by
    norm_num [codeKind, classifyRow, lowerChars, containsSub_nil_dep, containsSub_nil_wd,
      snapA0, snapA1, detectEps, materiality, tradeEps, abs_of_nonneg]
    decide
  have h := C3_theorem (classifyRow none snapA0) snapA0 snapA1
    (classifyRow_snap none snapA0) (Or.inl hk)
  constructor
  · rw [h.1]
    norm_num [snapA0, snapA1, abs_of_nonneg]
  · rw [h.2]
    norm_num [snapA0, snapA1, UPBIT_FEE_RATE, abs_of_nonneg]

/-- The first ledger entry of a non-empty run is built from the first
snapshot alone (no predecessor), with the cumulative sums started at
zero. -/
lemma pipeline_cons_head (curr : Snapshot) (rest : List Snapshot) :
    (pipeline (curr :: rest)).head? =
      some (perfRow (tradeRow none (classifyRow none curr))
        (stepAcc ⟨0, 0, 0, 0, 0⟩ (tradeRow none (classifyRow none curr)))) := by
  cases rest <;>
    simp [pipeline, detect_cash_flows, calculate_trading_amounts,
      calculate_performance, withPrev, perfGo]

/-- C4: for every non-empty snapshot sequence whose first snapshot is not
note-marked as a manual cash movement, the first snapshot with positive
base balance is treated as an implicit opening trade-buy for its entire
balance priced at its own last price, contributing that notional (plus the
corresponding fee) to the cumulative bought total; a first snapshot with
zero base balance contributes nothing. -/
theorem C4_theorem (curr : Snapshot) (rest : List Snapshot)
    (h1 : containsSub (lowerChars curr.reason) depositPat = false)
    (h2 : containsSub (lowerChars curr.reason) withdrawPat = false) :
    ∃ e : Entry, (pipeline (curr :: rest)).head? = some e ∧
      (0 < curr.btc_balance →
        e.buy_amount = curr.btc_balance * curr.btc_krw_price ∧
        e.trading_fee = curr.btc_balance * curr.btc_krw_price * UPBIT_FEE_RATE ∧
        e.cumulative_buy = curr.btc_balance * curr.btc_krw_price) ∧
      (curr.btc_balance = 0 →
        e.buy_amount = 0 ∧ e.trading_fee = 0 ∧ e.cumulative_buy = 0) := by
  have hf : classifyRow none curr = ⟨curr, FlowType.trade, 0, 0⟩ := by
    simp [classifyRow, h1, h2]
  refine ⟨_, pipeline_cons_head curr rest, ?_, ?_⟩
  · intro hpos
    simp [hf, tradeRow, perfRow, stepAcc, hpos]
  · intro hz
    simp [hf, tradeRow, perfRow, stepAcc, hz]

/-- Witness for C4_theorem at a concrete one-snapshot sequence. -/
theorem C4_witness :
    ∃ e : Entry, (pipeline [⟨none, 1 / 100, 400000, 60000000, 0⟩]).head? = some e ∧
      e.buy_amount = 600000 ∧ e.cumulative_buy = 600000 ∧ e.trading_fee = 300 := by
  obtain ⟨e, he, hpos, _⟩ :=
    C4_theorem ⟨none, 1 / 100, 400000, 60000000, 0⟩ [] (by decide) (by decide)
  obtain ⟨hb, hfee, hcum⟩ := hpos (by norm_num)
  refine ⟨e, he, ?_, ?_, ?_⟩
  · rw [hb]; norm_num
  · rw [hcum]; norm_num
  · rw [hfee]; norm_num [UPBIT_FEE_RATE]

/-- C5: a snapshot whose note marks a manual deposit is classified
deposit regardless of the pair's deltas; one whose note marks a manual
withdrawal (and not a manual deposit — the code checks the deposit mark
first) is classified withdraw regardless of the deltas. -/
theorem C5_theorem (prev : Option Snapshot) (curr : Snapshot) :
    (containsSub (lowerChars curr.reason) depositPat = true →
      (classifyRow prev curr).cash_flow_type = FlowType.deposit) ∧
    (containsSub (lowerChars curr.reason) withdrawPat = true →
      containsSub (lowerChars curr.reason) depositPat = false →
      (classifyRow prev curr).cash_flow_type = FlowType.withdraw) := by
  constructor
  · intro h
    simp [classifyRow, h]
  · intro h hnd
    simp [classifyRow, h, hnd]

/-- Witness for C5_theorem: a concrete noted snapshot is classified
deposit even though its deltas alone would make the pair a deposit-free
comparison. -/
theorem C5_witness :
    (classifyRow (some snapA0) noteSnap).cash_flow_type = FlowType.deposit :=
  (C5_theorem (some snapA0) noteSnap).1 (by decide)

/-- Pairing with the predecessor preserves the row count. -/
lemma withPrev_length {α : Type} (xs : List α) : (withPrev xs).length = xs.length := by
  simp [withPrev]

/-- The performance fold yields one entry per amounts row. -/
lemma perfGo_length (acc : CumAcc) (xs : List Amounts) :
    (perfGo acc xs).length = xs.length := by
  induction xs generalizing acc with
  | nil => rfl
  | cons a rest ih => simp [perfGo, ih]

/-- The full pipeline yields one ledger entry per snapshot: no snapshot
ever aborts or truncates the run. -/
lemma pipeline_length (rows : List Snapshot) : (pipeline rows).length = rows.length := by
  simp [pipeline, calculate_performance, calculate_trading_amounts, detect_cash_flows,
    perfGo_length, withPrev_length]

/-- C6 counterexample: an inferred trade-buy of 0.01 at the negative last
price -100 contributes -1 to `cumulative_buy` — the event is NOT excluded
from notional aggregation (and the code carries no unpriced flag at
all). -/
theorem C6_counterexample :
    ((pipeline [snapA0, negSnap1]).map (fun e => (e.cash_flow_type, e.cumulative_buy))) =
      [(FlowType.trade, 0), (FlowType.trade, -1)] ∧ (-1 : ℚ) ≠ 0 := by
  constructor
  · norm_num [pipeline, calculate_performance, perfGo, perfRow, stepAcc,
      calculate_trading_amounts, tradeRow, detect_cash_flows, classifyRow, withPrev,
      lowerChars, containsSub_nil_dep, containsSub_nil_wd, detectEps, materiality,
      tradeEps, UPBIT_FEE_RATE, snapA0, negSnap1, abs_of_nonneg, abs_of_nonpos]
  · norm_num

/-- C6 (amended): processing never halts (one ledger entry per snapshot,
whatever the prices), and a trade row whose last price is exactly zero
contributes zero buy amount, zero sell amount and zero fee — it drops out
of the aggregates arithmetically; but there is no unpriced flag, and a
negative price contributes a signed (negative) notional instead of being
excluded. -/
theorem C6_theorem :
    (∀ rows : List Snapshot, (pipeline rows).length = rows.length) ∧
    (∀ (pf : Option Flagged) (cf : Flagged), cf.snap.btc_krw_price = 0 →
      (tradeRow pf cf).buy_amount = 0 ∧ (tradeRow pf cf).sell_amount = 0 ∧
        (tradeRow pf cf).trading_fee = 0) := by
  refine ⟨pipeline_length, ?_⟩
  intro pf cf h
  refine ⟨?_, ?_, ?_⟩ <;>
    (cases pf <;> simp only [tradeRow] <;> (repeat' split) <;> simp [h])

/-- Witness for C6_theorem at a concrete list and a concrete zero-price
trade row. -/
theorem C6_witness :
    (pipeline [snapA0]).length = 1 ∧
      (tradeRow none ⟨⟨none, 1, 0, 0, 0⟩, FlowType.trade, 0, 0⟩).buy_amount = 0 := by
  have h := C6_theorem
  exact ⟨h.1 [snapA0], (h.2 none ⟨⟨none, 1, 0, 0, 0⟩, FlowType.trade, 0, 0⟩ rfl).1⟩

/-- C7 counterexample: a record with an unparseable timestamp is NOT
excluded from the computation — `load_data` keeps it, substituting the
current time (99 here) for its timestamp, so the downstream computation
still sees one record, not zero. -/
theorem C7_counterexample :
    fix_timestamps 99 [⟨none, ⟨none, 0, 0, 0, 0⟩⟩] = [⟨some 99, ⟨none, 0, 0, 0, 0⟩⟩] ∧
      ([(⟨some 99, ⟨none, 0, 0, 0, 0⟩⟩ : RawRow)].length ≠ 0) :=
  ⟨rfl, by decide⟩

/-- C7 (amended): the run always completes with one output row per input
row; records with parseable timestamps pass through unchanged; records
with unparseable timestamps are retained with the current time substituted
(their count is reported as a printed warning), so every output row has a
timestamp and none remains invalid. -/
theorem C7_theorem (now : Int) (rows : List RawRow) :
    (fix_timestamps now rows).length = rows.length ∧
    (∀ r, r ∈ rows → r.ts ≠ none → r ∈ fix_timestamps now rows) ∧
    (∀ r, r ∈ fix_timestamps now rows → r.ts ≠ none) ∧
    invalid_dates_count (fix_timestamps now rows) = 0 := by
  have h3 : ∀ r, r ∈ fix_timestamps now rows → r.ts ≠ none := by
    intro r hr
    simp only [fix_timestamps, List.mem_map] at hr
    obtain ⟨a, ha, rfl⟩ := hr
    cases hv : a.ts <;> simp [hv]
  refine ⟨by simp [fix_timestamps], ?_, h3, ?_⟩
  · intro r hr hts
    have hr2 : (match r.ts with
        | some _ => r
        | none => (⟨some now, r.payload⟩ : RawRow)) = r := by
      cases hv : r.ts
      · exact absurd hv hts
      · rfl
    simp only [fix_timestamps, List.mem_map]
    exact ⟨r, hr, hr2⟩
  · simp only [invalid_dates_count, List.length_eq_zero, List.filter_eq_nil_iff]
    intro a ha
    have := h3 a ha
    cases hv : a.ts <;> simp_all

/-- Witness for C7_theorem at a concrete two-row input with one bad
timestamp. -/
theorem C7_witness :
    (fix_timestamps 7 [⟨none, ⟨none, 0, 0, 0, 0⟩⟩, ⟨some 3, ⟨none, 0, 0, 0, 0⟩⟩]).length = 2 ∧
      (⟨some 3, ⟨none, 0, 0, 0, 0⟩⟩ : RawRow) ∈
        fix_timestamps 7 [⟨none, ⟨none, 0, 0, 0, 0⟩⟩, ⟨some 3, ⟨none, 0, 0, 0, 0⟩⟩] := by
  have h := C7_theorem 7 [⟨none, ⟨none, 0, 0, 0, 0⟩⟩, ⟨some 3, ⟨none, 0, 0, 0, 0⟩⟩]
  exact ⟨h.1, h.2.1 _ (List.Mem.tail _ (List.Mem.head _)) (by simp)⟩

/-- Every entry the performance fold produces was built by `perfRow`. -/
lemma perfGo_mem (acc : CumAcc) (xs : List Amounts) (e : Entry)
    (he : e ∈ perfGo acc xs) : ∃ a acc2, e = perfRow a acc2 := by
  induction xs generalizing acc with
  | nil => simp [perfGo] at he
  | cons a rest ih =>
    simp only [perfGo, List.mem_cons] at he
    rcases he with h | h
    · exact ⟨a, stepAcc acc a, h⟩
    · exact ih _ h

/-- C8: every ledger entry has `return_rate = performance / investment *
100` when the investment principal (cumulative deposits minus withdrawals,
the code's `net_investment`) is positive, and `return_rate = 0` otherwise
— a defined rational for every entry, never a division-by-zero. -/
theorem C8_theorem (rows : List Snapshot) (e : Entry) (he : e ∈ pipeline rows) :
    (0 < e.investment → e.return_rate = e.performance / e.investment * 100) ∧
    (¬ 0 < e.investment → e.return_rate = 0) := by
  have he2 : e ∈ perfGo ⟨0, 0, 0, 0, 0⟩ (calculate_trading_amounts (detect_cash_flows rows)) := he
  obtain ⟨a, acc2, rfl⟩ := perfGo_mem _ _ e he2
  constructor <;> intro h <;> simp only [perfRow] at h ⊢
  · rw [if_pos h]
  · rw [if_neg h]

/-- Witness for C8_theorem at a concrete one-snapshot run with zero
investment: the return rate is exactly 0, not undefined. -/
theorem C8_witness :
    ∃ e : Entry, e ∈ pipeline [snapA0] ∧ e.return_rate = 0 := by
  have hp : pipeline [snapA0] =
      [⟨snapA0, FlowType.trade, 0, 0, 0, 0, 0, 0, 0, 0, 0, 0, 1000000, 0, 1000000, 0, 0⟩] := by
    norm_num [pipeline, calculate_performance, perfGo, perfRow, stepAcc,
      calculate_trading_amounts, tradeRow, detect_cash_flows, classifyRow, withPrev,
      lowerChars, containsSub_nil_dep, containsSub_nil_wd, detectEps, materiality,
      tradeEps, UPBIT_FEE_RATE, snapA0, abs_of_nonneg]
  have hm : (⟨snapA0, FlowType.trade, 0, 0, 0, 0, 0, 0, 0, 0, 0, 0, 1000000, 0, 1000000, 0, 0⟩ : Entry)
      ∈ pipeline [snapA0] := by
    rw [hp]
    exact List.Mem.head _
  exact ⟨_, hm, (C8_theorem [snapA0] _ hm).2 (by norm_num)⟩

/-- The estimated fee of a row is non-negative whenever the row's last
price is non-negative (every amount is a non-negative quantity times the
price, times the positive fee rate). -/
lemma tradeRow_fee_nonneg (pf : Option Flagged) (cf : Flagged)
    (h : 0 ≤ cf.snap.btc_krw_price) : 0 ≤ (tradeRow pf cf).trading_fee := by
  have hrate : (0:ℚ) ≤ UPBIT_FEE_RATE := by norm_num [UPBIT_FEE_RATE]
  cases pf with
  | none =>
    simp only [tradeRow]
    split
    · exact le_refl 0
    split
    · rename_i hpos
      exact mul_nonneg (mul_nonneg (le_of_lt hpos) h) hrate
    · exact le_refl 0
  | some p =>
    simp only [tradeRow]
    split
    · exact le_refl 0
    split
    · rename_i hgt
      have hd : (0:ℚ) ≤ cf.snap.btc_balance - p.snap.btc_balance :=
        le_of_lt (lt_trans (by norm_num [tradeEps]) hgt)
      exact mul_nonneg (mul_nonneg hd h) hrate
    split
    · exact mul_nonneg (mul_nonneg (abs_nonneg _) h) hrate
    · exact le_refl 0

/-- The running fee total is a chain of non-decreasing values when every
row's fee is non-negative. -/
lemma perfGo_fees_chain (xs : List Amounts) :
    ∀ acc : CumAcc, (∀ a ∈ xs, 0 ≤ a.trading_fee) →
      List.Chain' (· ≤ ·) (acc.fees :: (perfGo acc xs).map Entry.cumulative_fees) := by
  induction xs with
  | nil =>
    intro acc h
    simp [perfGo]
  | cons a rest ih =>
    intro acc h
    simp only [perfGo, List.map_cons]
    rw [List.chain'_cons]
    constructor
    · show acc.fees ≤ (perfRow a (stepAcc acc a)).cumulative_fees
      have hc : (perfRow a (stepAcc acc a)).cumulative_fees = acc.fees + a.trading_fee := rfl
      rw [hc]
      exact le_add_of_nonneg_right (h a (List.mem_cons_self a rest))
    · exact ih (stepAcc acc a) (fun b hb => h b (List.mem_cons_of_mem a hb))

/-- C9 (amended): for every snapshot sequence in which every snapshot's
last price is non-negative, `cumulative_fees` is non-decreasing across the
ledger entries. -/
theorem C9_theorem (rows : List Snapshot) (h : ∀ s ∈ rows, 0 ≤ s.btc_krw_price) :
    List.Chain' (· ≤ ·) ((pipeline rows).map Entry.cumulative_fees) := by
  have hfees : ∀ a ∈ calculate_trading_amounts (detect_cash_flows rows), 0 ≤ a.trading_fee := by
    intro a ha
    simp only [calculate_trading_amounts, List.mem_map] at ha
    obtain ⟨⟨p, c⟩, hpc, rfl⟩ := ha
    apply tradeRow_fee_nonneg
    have hc : c ∈ detect_cash_flows rows :=
      (List.of_mem_zip (by simpa [withPrev] using hpc)).2
    simp only [detect_cash_flows, List.mem_map] at hc
    obtain ⟨⟨q, s⟩, hqs, rfl⟩ := hc
    rw [classifyRow_snap]
    exact h s (List.of_mem_zip (by simpa [withPrev] using hqs)).2
  have hchain := perfGo_fees_chain (calculate_trading_amounts (detect_cash_flows rows))
    ⟨0, 0, 0, 0, 0⟩ hfees
  exact hchain.tail

/-- C9 counterexample: on a sequence containing an inferred trade at the
negative price -100, `cumulative_fees` goes from 0 to -1/2000 — it
decreases, so the claim is false for arbitrary snapshot sequences. -/
theorem C9_counterexample :
    ((pipeline [snapA0, negSnap1]).map Entry.cumulative_fees) = [0, -1 / 2000] ∧
      ¬ ((0:ℚ) ≤ -1 / 2000) := by
  constructor
  · norm_num [pipeline, calculate_performance, perfGo, perfRow, stepAcc,
      calculate_trading_amounts, tradeRow, detect_cash_flows, classifyRow, withPrev,
      lowerChars, containsSub_nil_dep, containsSub_nil_wd, detectEps, materiality,
      tradeEps, UPBIT_FEE_RATE, snapA0, negSnap1, abs_of_nonneg, abs_of_nonpos]
  · norm_num

/-- Witness for C9_theorem on the Scenario B sequence. -/
theorem C9_witness :
    List.Chain' (· ≤ ·) ((pipeline scenarioB).map Entry.cumulative_fees) := by
  apply C9_theorem
  intro s hs
  simp only [scenarioB, List.mem_cons, List.not_mem_nil, or_false] at hs
  rcases hs with rfl | rfl | rfl <;> norm_num [snapA0, snapA1, snapB2]

/-- C10: `add_withdrawal` on a table whose latest row (by timestamp) holds
`krw_balance` below the requested amount inserts nothing and returns
False; when the latest balance is at least the amount it appends exactly
one withdrawal row — `krw_balance` reduced by the amount, all other
balance fields carried over — and returns True. -/
theorem C10_theorem (table : List TradeRowDB) (now : Int) (amount : ℚ)
    (d : String) (latest : TradeRowDB)
    (hl : latest_by_timestamp table = some latest) :
    (latest.krw_balance < amount → add_withdrawal table now amount d = (table, false)) ∧
    (amount ≤ latest.krw_balance →
      add_withdrawal table now amount d =
        (table ++ [⟨now, "hold", 0, ("Manual withdrawal: ") ++ d, latest.btc_balance,
          latest.krw_balance - amount, latest.btc_avg_buy_price, latest.btc_krw_price,
          "withdrawal", 1, d⟩], true)) := by
  constructor
  · intro h
    simp [add_withdrawal, hl, h]
  · intro h
    simp [add_withdrawal, hl, not_lt.mpr h]

/-- Witness for C10_theorem: with a latest balance of 500, a withdrawal
of 600 is refused leaving the table unchanged, while a withdrawal of 200
appends the expected row with balance 300. -/
theorem C10_witness :
    add_withdrawal [trow] 9 600 ("later") = ([trow], false) ∧
    add_withdrawal [trow] 9 200 ("ok") =
      ([trow, ⟨9, "hold", 0, ("Manual withdrawal: ") ++ ("ok"), 1 / 2, 300, 100, 200,
        "withdrawal", 1, "ok"⟩], true) := by
  have h := C10_theorem [trow] 9 600 ("later") trow rfl
  have h2 := C10_theorem [trow] 9 200 ("ok") trow rfl
  constructor
  · exact h.1 (by norm_num [trow])
  · have hr := h2.2 (by norm_num [trow])
    rw [hr]
    norm_num [trow]

end JwCoin
